import Mathlib

/-!
Shallow embedding of the `sdio-host` crate (SD card register decoders and
command encoders), together with theorems checking the crate's specification.

Machine integers are modelled as `Nat`; a Rust `as uN` cast or wrapping
arithmetic on a `uN` value is rendered as `% 2^N`.  Parameters whose Rust
type is `uN` are taken as `Nat` and reduced `% 2^N` at entry, so every
definition is total over `Nat` while agreeing with the Rust function on the
type's value range.
-/

namespace Sdio

/-! ## Register decoders (src/lib.rs) -/

/-- `BlockSize` enum from lib.rs; the numeric discriminants are the Rust ones
(`Unknown = 0`, `B512 = 9`, `B1024 = 10`, `B2048 = 11`). -/
inductive BlockSize where
  | Unknown
  | B512
  | B1024
  | B2048
deriving DecidableEq, Repr

/-- The Rust `as u64` view of a `BlockSize` value (its discriminant). -/
def BlockSize.toNat : BlockSize → Nat
  | .Unknown => 0
  | .B512 => 9
  | .B1024 => 10
  | .B2048 => 11

/-- `SDSpecVersion` enum from lib.rs. -/
inductive SDSpecVersion where
  | V1_0
  | V1_10
  | V2
  | V3
  | V4
  | V5
  | V6
  | V7
  | Unknown
deriving DecidableEq, Repr

namespace OCR

/-- First `while` loop of `OCR::voltage_window_mv`: while the low bit of
`window` is clear and `window` is nonzero, add 100 to `min` and shift right.
`fuel` bounds the iteration count; any `fuel` with `window < 2^fuel`
reproduces the Rust loop exactly. -/
def minLoop : Nat → Nat → Nat → Nat × Nat
  | 0, window, mn => (mn, window)
  | fuel + 1, window, mn =>
    if window % 2 = 0 ∧ window ≠ 0 then minLoop fuel (window / 2) (mn + 100)
    else (mn, window)

/-- Second `while` loop of `OCR::voltage_window_mv`: while `window` is
nonzero, add 100 to `max` and shift right. -/
def maxLoop : Nat → Nat → Nat → Nat
  | 0, _, mx => mx
  | fuel + 1, window, mx =>
    if window ≠ 0 then maxLoop fuel (window / 2) (mx + 100)
    else mx

/-- The scan over the 9-bit window performed by `OCR::voltage_window_mv`:
both `while` loops followed by the `min == max` test.  The window is 9 bits
wide, so fuel 9 covers every iteration the Rust loops can perform. -/
def scan (window : Nat) : Option (Nat × Nat) :=
  let p := minLoop 9 window 2700
  let mx := maxLoop 9 p.2 p.1
  if mx = p.1 then none else some (p.1, mx)

/-- `OCR::voltage_window_mv` from lib.rs: extract the 9-bit window
`(ocr >> 15) & 0x1FF` and scan it.  `ocr` is the raw `u32`. -/
def voltage_window_mv (ocr : Nat) : Option (Nat × Nat) :=
  scan ((ocr >>> 15) &&& 0x1FF)

/-- `OCR::high_capacity` from lib.rs. -/
def high_capacity (ocr : Nat) : Bool :=
  ocr &&& 0x40000000 ≠ 0

/-- `OCR::is_busy` from lib.rs (bit 31, active low). -/
def is_busy (ocr : Nat) : Bool :=
  ocr &&& 0x80000000 = 0

end OCR

namespace SCR

/-- The match of `SCR::version` as a function of the four extracted fields,
rendered as the equivalent first-match sequence of equality tests.  The Rust
arms `(2, 1, _, 1..=3)` leave `spec4` unconstrained. -/
def versionOfFields (spec spec3 spec4 specx : Nat) : SDSpecVersion :=
  if spec = 0 ∧ spec3 = 0 ∧ spec4 = 0 ∧ specx = 0 then .V1_0
  else if spec = 1 ∧ spec3 = 0 ∧ spec4 = 0 ∧ specx = 0 then .V1_10
  else if spec = 2 ∧ spec3 = 0 ∧ spec4 = 0 ∧ specx = 0 then .V2
  else if spec = 2 ∧ spec3 = 1 ∧ spec4 = 0 ∧ specx = 0 then .V3
  else if spec = 2 ∧ spec3 = 1 ∧ spec4 = 1 ∧ specx = 0 then .V4
  else if spec = 2 ∧ spec3 = 1 ∧ specx = 1 then .V5
  else if spec = 2 ∧ spec3 = 1 ∧ specx = 2 then .V6
  else if spec = 2 ∧ spec3 = 1 ∧ specx = 3 then .V7
  else .Unknown

/-- `SCR::version` from lib.rs, on the raw `u64`: extract the four fields and
dispatch on them. -/
def version (s : Nat) : SDSpecVersion :=
  versionOfFields ((s >>> 56) &&& 0xF) ((s >>> 47) &&& 1)
    ((s >>> 42) &&& 1) ((s >>> 38) &&& 0xF)

/-- The rows of the version table implemented by `SCR::version` (PLSS v7.10
Table 5-17, versions 1.0 through 7.0), as a predicate on the four fields. -/
def inTable (spec spec3 spec4 specx : Nat) : Prop :=
  (spec = 0 ∧ spec3 = 0 ∧ spec4 = 0 ∧ specx = 0) ∨
  (spec = 1 ∧ spec3 = 0 ∧ spec4 = 0 ∧ specx = 0) ∨
  (spec = 2 ∧ spec3 = 0 ∧ spec4 = 0 ∧ specx = 0) ∨
  (spec = 2 ∧ spec3 = 1 ∧ spec4 = 0 ∧ specx = 0) ∨
  (spec = 2 ∧ spec3 = 1 ∧ spec4 = 1 ∧ specx = 0) ∨
  (spec = 2 ∧ spec3 = 1 ∧ specx = 1) ∨
  (spec = 2 ∧ spec3 = 1 ∧ specx = 2) ∨
  (spec = 2 ∧ spec3 = 1 ∧ specx = 3)

instance (a b c d : Nat) : Decidable (inTable a b c d) := by
  unfold inTable; infer_instance

end SCR

namespace CSD

/-- `From<[u32; 4]> for CSD` (little-endian word order), from lib.rs. -/
def fromWords (w0 w1 w2 w3 : Nat) : Nat :=
  ((w3 % 2 ^ 32) <<< 96) ||| ((w2 % 2 ^ 32) <<< 64) |||
    ((w1 % 2 ^ 32) <<< 32) ||| (w0 % 2 ^ 32)

/-- `CSD::version` from lib.rs: `(self.0 >> 126) as u8 & 3`. -/
def version (c : Nat) : Nat :=
  ((c >>> 126) % 2 ^ 8) &&& 3

/-- `CSD::block_length` from lib.rs: match on the READ_BL_LEN field
`(self.0 >> 80) & 0xF`, rendered as first-match equality tests. -/
def block_length (c : Nat) : BlockSize :=
  if (c >>> 80) &&& 0xF = 9 then .B512
  else if (c >>> 80) &&& 0xF = 10 then .B1024
  else if (c >>> 80) &&& 0xF = 11 then .B2048
  else .Unknown

/-- `CSD::block_count` from lib.rs, the match on `version` rendered as
first-match equality tests.  The `u32` arithmetic of each branch is given a
final `% 2^32` (Rust wrapping); `as uN` casts are `% 2^N`. -/
def block_count (c : Nat) : Nat :=
  if version c = 0 then
    -- SDSC: c_size is `(self.0 >> 62) as u16 & 0xFFF`,
    -- c_size_mult is `(self.0 >> 47) as u8 & 7`
    (((((c >>> 62) % 2 ^ 16) &&& 0xFFF) + 1) *
        (1 <<< ((((c >>> 47) % 2 ^ 8) &&& 7) + 2))) % 2 ^ 32
  else if version c = 1 then
    -- SDHC / SDXC
    (((((c >>> 48) % 2 ^ 32) &&& 0x3FFFFF) + 1) * 1024) % 2 ^ 32
  else if version c = 2 then
    -- SDUC
    (((((c >>> 48) % 2 ^ 32) &&& 0xFFFFFFF) + 1) * 1024) % 2 ^ 32
  else 0

/-- `CSD::card_size` from lib.rs: `block_count as u64 * (1 << block_length)`,
with the `u64` product rendered `% 2^64`. -/
def card_size (c : Nat) : Nat :=
  let block_size_bytes := 1 <<< (block_length c).toNat
  (block_count c * block_size_bytes) % 2 ^ 64

end CSD

/-! ## Command encoder (src/cmd.rs) -/

/-- `ResponseLen` enum from cmd.rs. -/
inductive ResponseLen where
  | Zero
  | R48
  | R136
deriving DecidableEq, Repr

/-- `Cmd<R>` from cmd.rs; the phantom response marker is rendered as an
explicit `resp` field holding the marker's `LENGTH`. -/
structure Cmd where
  cmd : Nat
  arg : Nat
  resp : ResponseLen
deriving DecidableEq, Repr

/-- `cmd::<R>(cmd, arg)` from cmd.rs, with the marker's response length made
an explicit argument. -/
def cmd (r : ResponseLen) (c a : Nat) : Cmd :=
  ⟨c, a, r⟩

/-- CMD0 (`idle`): response marker `Rz`. -/
def idle : Cmd := cmd .Zero 0 0

/-- CMD2 (`all_send_cid`): response marker `R2`. -/
def all_send_cid : Cmd := cmd .R136 2 0

/-- CMD3 (`send_relative_address`): response marker `R6`. -/
def send_relative_address : Cmd := cmd .R48 3 0

/-- CMD6 (`cmd6`): response marker `R1`. -/
def cmd6 (arg : Nat) : Cmd := cmd .R48 6 (arg % 2 ^ 32)

/-- CMD7 (`select_card`): `rca` is a `u16`; argument `rca << 16`. -/
def select_card (rca : Nat) : Cmd := cmd .R48 7 ((rca % 2 ^ 16) <<< 16)

/-- CMD8 (`send_if_cond`): `voltage` and `checkpattern` are `u8`s. -/
def send_if_cond (voltage checkpattern : Nat) : Cmd :=
  cmd .R48 8 ((((voltage % 2 ^ 8) &&& 0xF) <<< 8) ||| (checkpattern % 2 ^ 8))

/-- CMD9 (`send_csd`): response marker `R2`. -/
def send_csd (rca : Nat) : Cmd := cmd .R136 9 ((rca % 2 ^ 16) <<< 16)

/-- CMD10 (`send_cid`): response marker `R2`. -/
def send_cid (rca : Nat) : Cmd := cmd .R136 10 ((rca % 2 ^ 16) <<< 16)

/-- CMD11 (`voltage_switch`). -/
def voltage_switch : Cmd := cmd .R48 11 0

/-- CMD12 (`stop_transmission`). -/
def stop_transmission : Cmd := cmd .R48 12 0

/-- CMD13 (`card_status`): argument `rca << 16 | task_status << 15`. -/
def card_status (rca : Nat) (task_status : Bool) : Cmd :=
  cmd .R48 13 (((rca % 2 ^ 16) <<< 16) ||| ((cond task_status 1 0) <<< 15))

/-- CMD15 (`go_inactive_state`): response marker `Rz`. -/
def go_inactive_state (rca : Nat) : Cmd := cmd .Zero 15 ((rca % 2 ^ 16) <<< 16)

/-- CMD16 (`set_block_length`). -/
def set_block_length (blocklen : Nat) : Cmd := cmd .R48 16 (blocklen % 2 ^ 32)

/-- CMD17 (`read_single_block`). -/
def read_single_block (addr : Nat) : Cmd := cmd .R48 17 (addr % 2 ^ 32)

/-- CMD18 (`read_multiple_blocks`). -/
def read_multiple_blocks (addr : Nat) : Cmd := cmd .R48 18 (addr % 2 ^ 32)

/-- CMD19 (`send_tuning_block`). -/
def send_tuning_block (addr : Nat) : Cmd := cmd .R48 19 (addr % 2 ^ 32)

/-- CMD20 (`speed_class_control`). -/
def speed_class_control (arg : Nat) : Cmd := cmd .R48 20 (arg % 2 ^ 32)

/-- CMD22 (`address_extension`). -/
def address_extension (arg : Nat) : Cmd := cmd .R48 22 (arg % 2 ^ 32)

/-- CMD23 (`set_block_count`). -/
def set_block_count (blockcount : Nat) : Cmd := cmd .R48 23 (blockcount % 2 ^ 32)

/-- CMD24 (`write_single_block`). -/
def write_single_block (addr : Nat) : Cmd := cmd .R48 24 (addr % 2 ^ 32)

/-- CMD25 (`write_multiple_blocks`). -/
def write_multiple_blocks (addr : Nat) : Cmd := cmd .R48 25 (addr % 2 ^ 32)

/-- CMD27 (`program_csd`). -/
def program_csd : Cmd := cmd .R48 27 0

/-- CMD55 (`app_cmd`). -/
def app_cmd (rca : Nat) : Cmd := cmd .R48 55 ((rca % 2 ^ 16) <<< 16)

/-- ACMD6 (`set_bus_width`): argument `0b10` iff 4-bit bus width. -/
def set_bus_width (bw4bit : Bool) : Cmd :=
  cmd .R48 6 (cond bw4bit 0b10 0b00)

/-- ACMD13 (`sd_status`). -/
def sd_status : Cmd := cmd .R48 13 0

/-- ACMD41 (`sd_send_op_cond`): argument packs the capacity/power/signaling
flags and the masked 24-bit voltage window. -/
def sd_send_op_cond (high_capacity xpc s18r : Bool) (voltage_window : Nat) : Cmd :=
  cmd .R48 41
    (((cond high_capacity 1 0) <<< 30) ||| ((cond xpc 1 0) <<< 28) |||
      ((cond s18r 1 0) <<< 24) ||| ((voltage_window % 2 ^ 32) &&& 0xFFFFFF))

/-- ACMD51 (`send_scr`). -/
def send_scr : Cmd := cmd .R48 51 0

/-! ## Helper lemmas -/

/-- An `as uN` truncation before masking with a constant below `2^N` is
redundant. -/
lemma mod_two_pow_and (x m N : Nat) (h : m < 2 ^ N) :
    (x % 2 ^ N) &&& m = x &&& m := by
  apply Nat.eq_of_testBit_eq
  intro i
  rw [Nat.testBit_and, Nat.testBit_and, Nat.testBit_mod_two_pow]
  by_cases hi : i < N
  · simp [hi]
  · have hm : m.testBit i = false :=
      Nat.testBit_lt_two_pow
        (lt_of_lt_of_le h (Nat.pow_le_pow_right (by norm_num) (le_of_not_lt hi)))
    simp [hm]

/-- Bits at or above the width of a value are clear. -/
lemma testBit_false_of_le (x n i : Nat) (hx : x < 2 ^ n) (h : n ≤ i) :
    x.testBit i = false :=
  Nat.testBit_lt_two_pow (lt_of_lt_of_le hx (Nat.pow_le_pow_right (by norm_num) h))

lemma CSD.version_le_three (c : Nat) : CSD.version c ≤ 3 :=
  Nat.and_le_right

lemma CSD.block_count_lt (c : Nat) : CSD.block_count c < 2 ^ 32 := by
  unfold CSD.block_count
  split_ifs <;> first | exact Nat.mod_lt _ (by norm_num) | norm_num

lemma CSD.block_length_toNat_le (c : Nat) : (CSD.block_length c).toNat ≤ 11 := by
  unfold CSD.block_length
  split_ifs <;> simp [BlockSize.toNat]

/-- The `u64` wrap in `card_size` never fires: the product is below `2^64`. -/
lemma CSD.card_size_eq (c : Nat) :
    CSD.card_size c = CSD.block_count c * 2 ^ (CSD.block_length c).toNat := by
  unfold CSD.card_size
  rw [Nat.one_shiftLeft]
  apply Nat.mod_eq_of_lt
  have h1 : CSD.block_count c ≤ 4294967295 := by
    have := CSD.block_count_lt c; omega
  have h2 : (2 : Nat) ^ (CSD.block_length c).toNat ≤ 2048 :=
    le_trans (Nat.pow_le_pow_right (by norm_num) (CSD.block_length_toNat_le c))
      (by norm_num)
  exact Nat.lt_of_le_of_lt (Nat.mul_le_mul h1 h2) (by norm_num)

/-- An unrecognized structure version falls through to the `_ => 0` arm. -/
lemma CSD.zero_of_version_three {c : Nat} (hv : CSD.version c = 3) :
    CSD.block_count c = 0 ∧ CSD.card_size c = 0 := by
  have hb : CSD.block_count c = 0 := by
    unfold CSD.block_count
    rw [hv]
    norm_num
  exact ⟨hb, by rw [CSD.card_size_eq, hb, Nat.zero_mul]⟩

/-! ## Claims -/

/-- C9: `block_count` on a v2 CSD is computed modulo `2^32`: for the CSD with
structure version 1 and the 22-bit C_SIZE field all ones, `(C_SIZE+1)*1024`
equals `2^32` and wraps, so `block_count` returns 0. -/
theorem C9_v2_block_count_wraps :
    CSD.version ((1 <<< 126) ||| (0x3FFFFF <<< 48)) = 1 ∧
    (((1 <<< 126) ||| (0x3FFFFF <<< 48) : Nat) >>> 48) &&& 0x3FFFFF = 0x3FFFFF ∧
    (0x3FFFFF + 1) * 1024 = 2 ^ 32 ∧
    CSD.block_count ((1 <<< 126) ||| (0x3FFFFF <<< 48)) = 0 := by
  decide

/-- C1 (counterexample): decoding a CSD whose structure-version bits are 3
(unrecognized) does not surface an error or empty result: `block_count` and
`card_size` return the plain default value 0. -/
theorem C1_counterexample :
    CSD.version (3 <<< 126) = 3 ∧
    ¬(CSD.version (3 <<< 126) = 0 ∨ CSD.version (3 <<< 126) = 1 ∨
      CSD.version (3 <<< 126) = 2) ∧
    CSD.block_count (3 <<< 126) = 0 ∧
    CSD.card_size (3 <<< 126) = 0 := by
  decide

/-- C1 (amended): for every CSD whose structure-version bits are not a
recognized version (0, 1, or 2), decoding does not fail: `block_count` and
`card_size` return the default value 0, with no error surfaced. -/
theorem C1_unrecognized_version_defaults (c : Nat) (h0 : CSD.version c ≠ 0)
    (h1 : CSD.version c ≠ 1) (h2 : CSD.version c ≠ 2) :
    CSD.block_count c = 0 ∧ CSD.card_size c = 0 := by
  have h3 : CSD.version c = 3 := by
    have := CSD.version_le_three c
    omega
  exact CSD.zero_of_version_three h3

/-- C1 (witness): the amended claim at the version-3 CSD `3 <<< 126`. -/
theorem C1_unrecognized_version_defaults_witness :
    CSD.block_count (3 <<< 126) = 0 ∧ CSD.card_size (3 <<< 126) = 0 :=
  C1_unrecognized_version_defaults (3 <<< 126) (by decide) (by decide) (by decide)

/-- C10: for every 4-word buffer whose structure-version bits decode to 3,
construction succeeds (it is total) and `block_count` and `card_size` both
return 0; no accessor produces an error value. -/
theorem C10_version_three_yields_zero (w0 w1 w2 w3 : Nat)
    (hv : CSD.version (CSD.fromWords w0 w1 w2 w3) = 3) :
    CSD.block_count (CSD.fromWords w0 w1 w2 w3) = 0 ∧
    CSD.card_size (CSD.fromWords w0 w1 w2 w3) = 0 :=
  CSD.zero_of_version_three hv

/-- C10 (witness): the words `[0, 0, 0, 0xC0000000]` put 3 in the
structure-version bits. -/
theorem C10_version_three_yields_zero_witness :
    CSD.block_count (CSD.fromWords 0 0 0 0xC0000000) = 0 ∧
    CSD.card_size (CSD.fromWords 0 0 0 0xC0000000) = 0 :=
  C10_version_three_yields_zero 0 0 0 0xC0000000 (by decide)

/-- C2 (counterexample): two v2 CSDs refute the claim as stated.  With the
C_SIZE field all ones, `(C_SIZE+1)*1024 = 2^32` wraps and `block_count` is 0,
not `(C_SIZE+1)*1024`.  With READ_BL_LEN = 10, `card_size` is
`block_count * 1024`, not `block_count * 512`. -/
theorem C2_counterexample :
    CSD.version ((1 <<< 126) ||| (0x3FFFFF <<< 48)) = 1 ∧
    CSD.block_count ((1 <<< 126) ||| (0x3FFFFF <<< 48)) = 0 ∧
    CSD.block_count ((1 <<< 126) ||| (0x3FFFFF <<< 48)) ≠ (0x3FFFFF + 1) * 1024 ∧
    CSD.version ((1 <<< 126) ||| (10 <<< 80)) = 1 ∧
    (((1 <<< 126) ||| (10 <<< 80) : Nat) >>> 80) &&& 0xF = 10 ∧
    CSD.block_count ((1 <<< 126) ||| (10 <<< 80)) = 1024 ∧
    CSD.card_size ((1 <<< 126) ||| (10 <<< 80)) = 1024 * 1024 ∧
    CSD.card_size ((1 <<< 126) ||| (10 <<< 80)) ≠
      CSD.block_count ((1 <<< 126) ||| (10 <<< 80)) * 512 := by
  decide

/-- C2 (amended): for every CSD whose structure-version bits equal 1,
`block_count` is `(C_SIZE+1)*1024` reduced modulo `2^32` (C_SIZE the 22-bit
field at bits [69:48]); `card_size` is `block_count` times the decoded block
length `2^READ_BL_LEN` (READ_BL_LEN in {9,10,11}, else `2^0`), and equals
`block_count * 512` when the READ_BL_LEN field is 9. -/
theorem C2_v2_capacity (c : Nat) (hv : CSD.version c = 1) :
    CSD.block_count c = (((c >>> 48) &&& 0x3FFFFF) + 1) * 1024 % 2 ^ 32 ∧
    CSD.card_size c = CSD.block_count c * 2 ^ (CSD.block_length c).toNat ∧
    ((c >>> 80) &&& 0xF = 9 → CSD.card_size c = CSD.block_count c * 512) := by
  refine ⟨?_, CSD.card_size_eq c, ?_⟩
  · unfold CSD.block_count
    rw [hv]
    simp only [reduceIte]
    rw [mod_two_pow_and _ _ _ (by norm_num : (0x3FFFFF : Nat) < 2 ^ 32)]
    norm_num
  · intro h9
    rw [CSD.card_size_eq c]
    unfold CSD.block_length
    rw [h9]
    norm_num [BlockSize.toNat]

/-- C2 (witness): the amended claim at the Panasonic 8 GB fixture CSD from the
repository's tests. -/
theorem C2_v2_capacity_witness :
    CSD.block_count (CSD.fromWords 171966712 968064896 1532559360 1074659378) =
      (((CSD.fromWords 171966712 968064896 1532559360 1074659378 >>> 48) &&&
        0x3FFFFF) + 1) * 1024 % 2 ^ 32 ∧
    CSD.card_size (CSD.fromWords 171966712 968064896 1532559360 1074659378) =
      CSD.block_count (CSD.fromWords 171966712 968064896 1532559360 1074659378) *
        2 ^ (CSD.block_length
          (CSD.fromWords 171966712 968064896 1532559360 1074659378)).toNat ∧
    ((CSD.fromWords 171966712 968064896 1532559360 1074659378 >>> 80) &&& 0xF = 9 →
      CSD.card_size (CSD.fromWords 171966712 968064896 1532559360 1074659378) =
        CSD.block_count (CSD.fromWords 171966712 968064896 1532559360 1074659378) *
          512) :=
  C2_v2_capacity (CSD.fromWords 171966712 968064896 1532559360 1074659378)
    (by decide)

/-- C3 (counterexample): a v1 CSD with READ_BL_LEN = 8 refutes the claim's
`card_size` formula: the code decodes READ_BL_LEN values outside {9,10,11} as
`Unknown` (block size `2^0 = 1`), so `card_size` is `block_count * 1`, not
`block_count * 2^8`. -/
theorem C3_counterexample :
    CSD.version ((8 <<< 80) ||| (1 <<< 62)) = 0 ∧
    (((8 <<< 80) ||| (1 <<< 62) : Nat) >>> 80) &&& 0xF = 8 ∧
    CSD.block_count ((8 <<< 80) ||| (1 <<< 62)) = 8 ∧
    CSD.card_size ((8 <<< 80) ||| (1 <<< 62)) = 8 ∧
    CSD.card_size ((8 <<< 80) ||| (1 <<< 62)) ≠
      CSD.block_count ((8 <<< 80) ||| (1 <<< 62)) * 2 ^ 8 := by
  decide

/-- C3 (amended): for every CSD whose structure-version bits equal 0,
`block_count` is `(C_SIZE+1) * 2^(C_SIZE_MULT+2)` exactly (C_SIZE the 12-bit
field at bits [73:62], C_SIZE_MULT the 3-bit field at bits [49:47]);
`card_size` is `block_count` times the decoded block length, which equals
`2^READ_BL_LEN` when the READ_BL_LEN field at bits [83:80] is in {9,10,11}
(and `2^0` otherwise). -/
theorem C3_v1_capacity (c : Nat) (hv : CSD.version c = 0) :
    CSD.block_count c =
      (((c >>> 62) &&& 0xFFF) + 1) * 2 ^ (((c >>> 47) &&& 7) + 2) ∧
    CSD.card_size c = CSD.block_count c * 2 ^ (CSD.block_length c).toNat ∧
    (((c >>> 80) &&& 0xF = 9 ∨ (c >>> 80) &&& 0xF = 10 ∨ (c >>> 80) &&& 0xF = 11) →
      CSD.card_size c = CSD.block_count c * 2 ^ ((c >>> 80) &&& 0xF)) := by
  refine ⟨?_, CSD.card_size_eq c, ?_⟩
  · unfold CSD.block_count
    rw [hv]
    simp only [reduceIte]
    rw [mod_two_pow_and _ _ _ (by norm_num : (0xFFF : Nat) < 2 ^ 16),
      mod_two_pow_and _ _ _ (by norm_num : (7 : Nat) < 2 ^ 8),
      Nat.one_shiftLeft]
    apply Nat.mod_eq_of_lt
    have h1 : (c >>> 62) &&& 0xFFF ≤ 0xFFF := Nat.and_le_right
    have h2 : (c >>> 47) &&& 7 ≤ 7 := Nat.and_le_right
    have h3 : (2 : Nat) ^ (((c >>> 47) &&& 7) + 2) ≤ 2 ^ 9 :=
      Nat.pow_le_pow_right (by norm_num) (by omega)
    have h4 : ((c >>> 62) &&& 0xFFF) + 1 ≤ 4096 := by omega
    exact Nat.lt_of_le_of_lt (Nat.mul_le_mul h4 h3) (by norm_num)
  · rintro (h | h | h) <;>
      · rw [CSD.card_size_eq c]
        unfold CSD.block_length
        rw [h]
        norm_num [BlockSize.toNat]

/-- C3 (witness): the amended claim at a v1 CSD with C_SIZE = 5,
C_SIZE_MULT = 2 and READ_BL_LEN = 9. -/
theorem C3_v1_capacity_witness :
    CSD.block_count ((9 <<< 80) ||| (5 <<< 62) ||| (2 <<< 47)) =
      (((((9 <<< 80) ||| (5 <<< 62) ||| (2 <<< 47) : Nat) >>> 62) &&& 0xFFF) + 1) *
        2 ^ ((((((9 <<< 80) ||| (5 <<< 62) ||| (2 <<< 47) : Nat)) >>> 47) &&& 7) + 2) ∧
    CSD.card_size ((9 <<< 80) ||| (5 <<< 62) ||| (2 <<< 47)) =
      CSD.block_count ((9 <<< 80) ||| (5 <<< 62) ||| (2 <<< 47)) *
        2 ^ (CSD.block_length ((9 <<< 80) ||| (5 <<< 62) ||| (2 <<< 47))).toNat ∧
    (((((9 <<< 80) ||| (5 <<< 62) ||| (2 <<< 47) : Nat) >>> 80) &&& 0xF = 9 ∨
      ((((9 <<< 80) ||| (5 <<< 62) ||| (2 <<< 47) : Nat)) >>> 80) &&& 0xF = 10 ∨
      ((((9 <<< 80) ||| (5 <<< 62) ||| (2 <<< 47) : Nat)) >>> 80) &&& 0xF = 11) →
      CSD.card_size ((9 <<< 80) ||| (5 <<< 62) ||| (2 <<< 47)) =
        CSD.block_count ((9 <<< 80) ||| (5 <<< 62) ||| (2 <<< 47)) *
          2 ^ (((((9 <<< 80) ||| (5 <<< 62) ||| (2 <<< 47) : Nat)) >>> 80) &&& 0xF)) :=
  C3_v1_capacity ((9 <<< 80) ||| (5 <<< 62) ||| (2 <<< 47)) (by decide)

/-- The scan returns `none` exactly on the zero window (checked over all
9-bit windows). -/
lemma OCR.scan_none_iff (w : Nat) (hw : w < 512) :
    OCR.scan w = none ↔ w = 0 := by
  have H : ∀ w : Fin 512, (OCR.scan w.val = none ↔ w.val = 0) := by
    set_option maxRecDepth 8000 in decide
  exact H ⟨w, hw⟩

/-- If bit `k` is the lowest set bit of the 9-bit window, the scan's reported
minimum is `2700 + 100*k` (checked over all 9-bit windows and positions). -/
lemma OCR.scan_min (w k : Nat) (hw : w < 512) (hk : k < 9)
    (hbit : w.testBit k = true) (hlow : ∀ j, j < k → w.testBit j = false) :
    (OCR.scan w).map Prod.fst = some (2700 + 100 * k) := by
  have H : ∀ w : Fin 512, ∀ k : Fin 9, w.val.testBit k.val = true →
      (∀ j : Fin 9, j.val < k.val → w.val.testBit j.val = false) →
      (OCR.scan w.val).map Prod.fst = some (2700 + 100 * k.val) := by
    set_option maxRecDepth 100000 in decide
  exact H ⟨w, hw⟩ ⟨k, hk⟩ hbit fun j hj => hlow j.val hj

/-- Bit `i` of the extracted OCR window is bit `15 + i` of the raw OCR word,
for `i` below the 9-bit window width. -/
lemma OCR.window_testBit (ocr i : Nat) :
    ((ocr >>> 15) &&& 0x1FF).testBit i = (ocr.testBit (15 + i) && decide (i < 9)) := by
  have h : (0x1FF : Nat) = 2 ^ 9 - 1 := by norm_num
  rw [Nat.testBit_and, Nat.testBit_shiftRight, h, Nat.testBit_two_pow_sub_one]

/-- C4: `voltage_window_mv` returns `none` iff all of OCR bits [23:15] are
zero, and when bit `k` (15 ≤ k ≤ 23) is the lowest set bit among them, the
returned minimum voltage is exactly `2700 + 100*(k-15)` mV. -/
theorem C4_ocr_voltage_window (ocr : Nat) :
    (OCR.voltage_window_mv ocr = none ↔
      ∀ k, 15 ≤ k → k ≤ 23 → Nat.testBit ocr k = false) ∧
    (∀ k, 15 ≤ k → k ≤ 23 → Nat.testBit ocr k = true →
      (∀ j, 15 ≤ j → j < k → Nat.testBit ocr j = false) →
      ∃ mx, OCR.voltage_window_mv ocr = some (2700 + 100 * (k - 15), mx)) := by
  have hwlt : (ocr >>> 15) &&& 0x1FF < 512 :=
    Nat.lt_of_le_of_lt Nat.and_le_right (by norm_num)
  constructor
  · unfold OCR.voltage_window_mv
    rw [OCR.scan_none_iff _ hwlt]
    constructor
    · intro h0 k h15 h23
      have hb := OCR.window_testBit ocr (k - 15)
      rw [h0, Nat.zero_testBit] at hb
      have h1 : 15 + (k - 15) = k := by omega
      have h2 : decide (k - 15 < 9) = true := by simp; omega
      rw [h1, h2, Bool.and_true] at hb
      exact hb.symm
    · intro hall
      apply Nat.eq_of_testBit_eq
      intro i
      rw [Nat.zero_testBit, OCR.window_testBit]
      by_cases hi : i < 9
      · have := hall (15 + i) (by omega) (by omega)
        simp [this]
      · simp [hi]
  · intro k h15 h23 hk hlow
    have hbw : ((ocr >>> 15) &&& 0x1FF).testBit (k - 15) = true := by
      rw [OCR.window_testBit]
      have h1 : 15 + (k - 15) = k := by omega
      have h2 : decide (k - 15 < 9) = true := by simp; omega
      rw [h1, h2, hk, Bool.true_and]
    have hlow' : ∀ j, j < k - 15 → ((ocr >>> 15) &&& 0x1FF).testBit j = false := by
      intro j hj
      rw [OCR.window_testBit]
      have := hlow (15 + j) (by omega) (by omega)
      simp [this]
    have hmap := OCR.scan_min _ _ hwlt (by omega) hbw hlow'
    unfold OCR.voltage_window_mv
    cases hs : OCR.scan ((ocr >>> 15) &&& 0x1FF) with
    | none => rw [hs] at hmap; simp at hmap
    | some p =>
      rw [hs] at hmap
      simp only [Option.map_some', Option.some.injEq] at hmap
      exact ⟨p.2, by rw [← hmap]⟩

/-- C4 (witness): instantiated on the OCR word `2^16` (only bit 16 set in the
window), where the reported minimum is 2800 mV. -/
theorem C4_ocr_voltage_window_witness :
    (OCR.voltage_window_mv 65536 = none ↔
      ∀ k, 15 ≤ k → k ≤ 23 → Nat.testBit 65536 k = false) ∧
    ∃ mx, OCR.voltage_window_mv 65536 = some (2700 + 100 * (16 - 15), mx) :=
  ⟨(C4_ocr_voltage_window 65536).1,
    (C4_ocr_voltage_window 65536).2 16 (by norm_num) (by norm_num) (by decide)
      (fun j h1 h2 => by
        have : j = 15 := by omega
        subst this
        decide)⟩

/-- C5: every command builder's response-shape tag matches the protocol
table: CMD2/CMD9/CMD10 carry the long 136-bit shape, CMD0/CMD15 the
no-response shape, and every other defined standard and application command
the short 48-bit shape. -/
theorem C5_response_shapes :
    idle.cmd = 0 ∧ idle.resp = .Zero ∧
    (∀ rca, (go_inactive_state rca).cmd = 15 ∧ (go_inactive_state rca).resp = .Zero) ∧
    all_send_cid.cmd = 2 ∧ all_send_cid.resp = .R136 ∧
    (∀ rca, (send_csd rca).cmd = 9 ∧ (send_csd rca).resp = .R136) ∧
    (∀ rca, (send_cid rca).cmd = 10 ∧ (send_cid rca).resp = .R136) ∧
    send_relative_address.resp = .R48 ∧
    (∀ a, (cmd6 a).resp = .R48) ∧
    (∀ rca, (select_card rca).resp = .R48) ∧
    (∀ v p, (send_if_cond v p).resp = .R48) ∧
    voltage_switch.resp = .R48 ∧
    stop_transmission.resp = .R48 ∧
    (∀ rca t, (card_status rca t).resp = .R48) ∧
    (∀ b, (set_block_length b).resp = .R48) ∧
    (∀ a, (read_single_block a).resp = .R48) ∧
    (∀ a, (read_multiple_blocks a).resp = .R48) ∧
    (∀ a, (send_tuning_block a).resp = .R48) ∧
    (∀ a, (speed_class_control a).resp = .R48) ∧
    (∀ a, (address_extension a).resp = .R48) ∧
    (∀ a, (set_block_count a).resp = .R48) ∧
    (∀ a, (write_single_block a).resp = .R48) ∧
    (∀ a, (write_multiple_blocks a).resp = .R48) ∧
    program_csd.resp = .R48 ∧
    (∀ rca, (app_cmd rca).resp = .R48) ∧
    (∀ b, (set_bus_width b).resp = .R48) ∧
    sd_status.resp = .R48 ∧
    (∀ h x s vw, (sd_send_op_cond h x s vw).resp = .R48) ∧
    send_scr.resp = .R48 :=
  ⟨rfl, rfl, fun _ => ⟨rfl, rfl⟩, rfl, rfl, fun _ => ⟨rfl, rfl⟩,
    fun _ => ⟨rfl, rfl⟩, rfl, fun _ => rfl, fun _ => rfl, fun _ _ => rfl, rfl,
    rfl, fun _ _ => rfl, fun _ => rfl, fun _ => rfl, fun _ => rfl, fun _ => rfl,
    fun _ => rfl, fun _ => rfl, fun _ => rfl, fun _ => rfl, fun _ => rfl, rfl,
    fun _ => rfl, fun _ => rfl, rfl, fun _ _ _ _ => rfl, rfl⟩

/-- C6: the concrete command encodings from the spec's table hold exactly. -/
theorem C6_concrete_encodings :
    (select_card 0x1234).cmd = 7 ∧ (select_card 0x1234).arg = 0x12340000 ∧
    (send_if_cond 0x1 0xAA).cmd = 8 ∧ (send_if_cond 0x1 0xAA).arg = 0x01AA ∧
    (sd_send_op_cond true false false 0x00FF8000).cmd = 41 ∧
    (sd_send_op_cond true false false 0x00FF8000).arg = 0x40FF8000 ∧
    (set_bus_width true).arg = 0b10 := by
  decide

/-- A one-bit flag shifted by `sh` has no bit above `sh`. -/
lemma cond_bit_shift_high (b : Bool) (sh i : Nat) (hi : sh < i) :
    ((cond b 1 0) <<< sh).testBit i = false := by
  rw [Nat.testBit_shiftLeft,
    testBit_false_of_le (cond b 1 0) 1 (i - sh) (by cases b <;> norm_num) (by omega)]
  simp

/-- A value shifted by `sh` has no bit below `sh`. -/
lemma shift_testBit_low (x sh i : Nat) (hi : i < sh) :
    (x <<< sh).testBit i = false := by
  rw [Nat.testBit_shiftLeft, decide_eq_false (by omega : ¬i ≥ sh)]
  simp

/-- C7: for the fixed-layout command builders, every argument bit outside the
bit positions the protocol defines for that command is zero, for all
parameter values: RCA-carrying commands have bits [15:0] clear, `card_status`
has bits [14:0] clear, `send_if_cond` has bits [31:12] clear,
`sd_send_op_cond` has bits 31, 29 and [27:25] clear, and `set_bus_width` has
every bit above bit 1 clear. -/
theorem C7_unused_argument_bits :
    (∀ rca i, i < 16 → ((select_card rca).arg).testBit i = false) ∧
    (∀ rca i, i < 16 → ((send_csd rca).arg).testBit i = false) ∧
    (∀ rca i, i < 16 → ((send_cid rca).arg).testBit i = false) ∧
    (∀ rca i, i < 16 → ((go_inactive_state rca).arg).testBit i = false) ∧
    (∀ rca i, i < 16 → ((app_cmd rca).arg).testBit i = false) ∧
    (∀ rca t i, i < 15 → ((card_status rca t).arg).testBit i = false) ∧
    (∀ v p i, 12 ≤ i → ((send_if_cond v p).arg).testBit i = false) ∧
    (∀ h x s vw, ((sd_send_op_cond h x s vw).arg).testBit 31 = false ∧
      ((sd_send_op_cond h x s vw).arg).testBit 29 = false ∧
      ((sd_send_op_cond h x s vw).arg).testBit 27 = false ∧
      ((sd_send_op_cond h x s vw).arg).testBit 26 = false ∧
      ((sd_send_op_cond h x s vw).arg).testBit 25 = false) ∧
    (∀ b i, 2 ≤ i → ((set_bus_width b).arg).testBit i = false) := by
  refine ⟨?_, ?_, ?_, ?_, ?_, ?_, ?_, ?_, ?_⟩
  · exact fun rca i hi => shift_testBit_low _ 16 i hi
  · exact fun rca i hi => shift_testBit_low _ 16 i hi
  · exact fun rca i hi => shift_testBit_low _ 16 i hi
  · exact fun rca i hi => shift_testBit_low _ 16 i hi
  · exact fun rca i hi => shift_testBit_low _ 16 i hi
  · intro rca t i hi
    show (((rca % 2 ^ 16) <<< 16) ||| ((cond t 1 0) <<< 15)).testBit i = false
    rw [Nat.testBit_or, shift_testBit_low _ 16 i (by omega),
      shift_testBit_low _ 15 i (by omega)]
    rfl
  · intro v p i hi
    show ((((v % 2 ^ 8) &&& 0xF) <<< 8) ||| (p % 2 ^ 8)).testBit i = false
    rw [Nat.testBit_or, Nat.testBit_shiftLeft,
      testBit_false_of_le ((v % 2 ^ 8) &&& 0xF) 4 (i - 8)
        (Nat.lt_of_le_of_lt Nat.and_le_right (by norm_num)) (by omega),
      testBit_false_of_le (p % 2 ^ 8) 8 i (Nat.mod_lt _ (by norm_num)) (by omega)]
    simp
  · intro h x s vw
    have hvw : ∀ b, 24 ≤ b → ((vw % 2 ^ 32) &&& 0xFFFFFF).testBit b = false :=
      fun b hb => testBit_false_of_le _ 24 _
        (Nat.lt_of_le_of_lt Nat.and_le_right (by norm_num)) hb
    refine ⟨?_, ?_, ?_, ?_, ?_⟩ <;>
      show ((((cond h 1 0) <<< 30) ||| ((cond x 1 0) <<< 28) |||
        ((cond s 1 0) <<< 24) ||| ((vw % 2 ^ 32) &&& 0xFFFFFF)).testBit _) = false
    · rw [Nat.testBit_or, Nat.testBit_or, Nat.testBit_or,
        cond_bit_shift_high h 30 31 (by norm_num),
        cond_bit_shift_high x 28 31 (by norm_num),
        cond_bit_shift_high s 24 31 (by norm_num), hvw 31 (by norm_num)]
      rfl
    · rw [Nat.testBit_or, Nat.testBit_or, Nat.testBit_or,
        shift_testBit_low _ 30 29 (by norm_num),
        cond_bit_shift_high x 28 29 (by norm_num),
        cond_bit_shift_high s 24 29 (by norm_num), hvw 29 (by norm_num)]
      rfl
    · rw [Nat.testBit_or, Nat.testBit_or, Nat.testBit_or,
        shift_testBit_low _ 30 27 (by norm_num),
        shift_testBit_low _ 28 27 (by norm_num),
        cond_bit_shift_high s 24 27 (by norm_num), hvw 27 (by norm_num)]
      rfl
    · rw [Nat.testBit_or, Nat.testBit_or, Nat.testBit_or,
        shift_testBit_low _ 30 26 (by norm_num),
        shift_testBit_low _ 28 26 (by norm_num),
        cond_bit_shift_high s 24 26 (by norm_num), hvw 26 (by norm_num)]
      rfl
    · rw [Nat.testBit_or, Nat.testBit_or, Nat.testBit_or,
        shift_testBit_low _ 30 25 (by norm_num),
        shift_testBit_low _ 28 25 (by norm_num),
        cond_bit_shift_high s 24 25 (by norm_num), hvw 25 (by norm_num)]
      rfl
  · intro b i hi
    exact testBit_false_of_le _ 2 _ (by cases b <;> decide) hi

/-- C7 (witness): one concrete unused-bit check per builder of the claim. -/
theorem C7_unused_argument_bits_witness :
    ((select_card 0x1234).arg).testBit 0 = false ∧
    ((send_csd 1).arg).testBit 5 = false ∧
    ((send_cid 1).arg).testBit 15 = false ∧
    ((go_inactive_state 1).arg).testBit 7 = false ∧
    ((app_cmd 1).arg).testBit 3 = false ∧
    ((card_status 1 true).arg).testBit 14 = false ∧
    ((send_if_cond 1 0xAA).arg).testBit 12 = false ∧
    ((sd_send_op_cond true false false 0xFF8000).arg).testBit 31 = false ∧
    ((set_bus_width true).arg).testBit 2 = false :=
  ⟨C7_unused_argument_bits.1 0x1234 0 (by norm_num),
    C7_unused_argument_bits.2.1 1 5 (by norm_num),
    C7_unused_argument_bits.2.2.1 1 15 (by norm_num),
    C7_unused_argument_bits.2.2.2.1 1 7 (by norm_num),
    C7_unused_argument_bits.2.2.2.2.1 1 3 (by norm_num),
    C7_unused_argument_bits.2.2.2.2.2.1 1 true 14 (by norm_num),
    C7_unused_argument_bits.2.2.2.2.2.2.1 1 0xAA 12 (by norm_num),
    (C7_unused_argument_bits.2.2.2.2.2.2.2.1 true false false 0xFF8000).1,
    C7_unused_argument_bits.2.2.2.2.2.2.2.2 true 2 (by norm_num)⟩

/-- On the fields' value ranges, the dispatch yields `Unknown` exactly off
the table (checked over all 16·2·2·16 field combinations). -/
lemma SCR.versionOfFields_unknown_iff (a b c d : Nat) (ha : a < 16)
    (hb : b < 2) (hc : c < 2) (hd : d < 16) :
    SCR.versionOfFields a b c d = .Unknown ↔ ¬SCR.inTable a b c d := by
  have H : ∀ a : Fin 16, ∀ b c : Fin 2, ∀ d : Fin 16,
      (SCR.versionOfFields a.val b.val c.val d.val = .Unknown ↔
        ¬SCR.inTable a.val b.val c.val d.val) := by
    set_option maxRecDepth 8000 in decide
  exact H ⟨a, ha⟩ ⟨b, hb⟩ ⟨c, hc⟩ ⟨d, hd⟩

/-- C8: the reported SCR spec version is a pure function of exactly the four
bit fields SD_SPEC (bits [59:56]), SD_SPEC3 (bit 47), SD_SPEC4 (bit 42) and
SD_SPECX (bits [41:38]), resolved against the physical-layer table
(`versionOfFields`, versions 1.0 through 7.0), and every field combination
outside the table yields `Unknown`. -/
theorem C8_scr_version_table (s t : Nat) :
    SCR.version s = SCR.versionOfFields ((s >>> 56) &&& 0xF) ((s >>> 47) &&& 1)
      ((s >>> 42) &&& 1) ((s >>> 38) &&& 0xF) ∧
    ((s >>> 56) &&& 0xF = (t >>> 56) &&& 0xF →
      (s >>> 47) &&& 1 = (t >>> 47) &&& 1 →
      (s >>> 42) &&& 1 = (t >>> 42) &&& 1 →
      (s >>> 38) &&& 0xF = (t >>> 38) &&& 0xF →
      SCR.version s = SCR.version t) ∧
    (SCR.version s = .Unknown ↔
      ¬SCR.inTable ((s >>> 56) &&& 0xF) ((s >>> 47) &&& 1) ((s >>> 42) &&& 1)
        ((s >>> 38) &&& 0xF)) := by
  refine ⟨rfl, ?_, ?_⟩
  · intro h1 h2 h3 h4
    unfold SCR.version
    rw [h1, h2, h3, h4]
  · exact SCR.versionOfFields_unknown_iff _ _ _ _
      (Nat.lt_of_le_of_lt Nat.and_le_right (by norm_num))
      (Nat.lt_of_le_of_lt Nat.and_le_right (by norm_num))
      (Nat.lt_of_le_of_lt Nat.and_le_right (by norm_num))
      (Nat.lt_of_le_of_lt Nat.and_le_right (by norm_num))

/-- C8 (witness): the SCR values `0` and `2^10` extract identical fields, so
the dispatch agrees on them; the zero fields sit in the table's first row. -/
theorem C8_scr_version_table_witness :
    SCR.version 0 = SCR.version 1024 ∧
    (SCR.version 0 = .Unknown ↔
      ¬SCR.inTable ((0 >>> 56) &&& 0xF) ((0 >>> 47) &&& 1) ((0 >>> 42) &&& 1)
        ((0 >>> 38) &&& 0xF)) :=
  ⟨(C8_scr_version_table 0 1024).2.1 (by decide) (by decide) (by decide)
      (by decide),
    (C8_scr_version_table 0 1024).2.2⟩

end Sdio
